import Mathlib

/-!
Verification of the tracker-dodgerino backend against its specification.

The repository consists of three request handlers:
* `api/index.js` — two near-identical variants of the player-status
  resolver: a Vercel serverless variant and an Express variant
  (both present in the source file);
* `api/check-radar-players-status.js` — a lightweight "radar" check;
* `api/get-last-game-participants.js` — a participants lookup.

We embed the pure decision logic shallowly: each upstream HTTP response is
supplied by a "world" record (one response per endpoint consulted), machine
time `Date.now()` is a parameter `now : Int`, and the module-level caches
(`championIdMap`, `championKeyMap`, `LATEST_PATCH_VERSION`) are threaded as
parameters.  Whether an outbound network call is attempted is tracked
explicitly as a list of endpoint tags.
-/

namespace Dodgerino

/-- JS falsiness of `RIOT_API_KEY` (a `string | undefined`): the guard
`!RIOT_API_KEY` is true when the variable is unset or the empty string. -/
def keyMissing : Option String → Bool
  | none => true
  | some s => s == ""

/-- node-fetch sets `response.ok` to `status >= 200 && status < 300`. -/
def respOk (status : Nat) : Bool :=
  200 ≤ status && status < 300

/-- `String.prototype.padStart(n, c)`: left-pad to length `n` with `c`. -/
def padStart (n : Nat) (c : Char) (s : String) : String :=
  String.mk (List.replicate (n - s.length) c) ++ s

/-- `formatTimeAgo` (api/index.js lines 29–36): buckets a minute count into
"Just now" / "Nm ago" / "Hh ago" / "Dd ago".  JS `Math.floor(x / k)` on a
possibly negative quotient is floor division, i.e. `Int.fdiv`. -/
def formatTimeAgo (minutes : Int) : String :=
  if minutes == 0 then "Just now"
  else if minutes < 60 then toString minutes ++ "m ago"
  else
    let hours := Int.fdiv minutes 60
    if hours < 24 then toString hours ++ "h ago"
    else
      let days := Int.fdiv hours 24
      toString days ++ "d ago"

/-- `getPlatformUrl` (api/index.js lines 38–50, identical copy in
api/check-radar-players-status.js lines 19–31): a fixed region table keyed
by the upper-cased region code; an unknown region yields `undefined`. -/
def getPlatformUrl (region : String) : Option String :=
  let r := region.toUpper
  if r == "BR1" then some "br1.api.riotgames.com"
  else if r == "EUN1" then some "eun1.api.riotgames.com"
  else if r == "EUW1" then some "euw1.api.riotgames.com"
  else if r == "JP1" then some "jp1.api.riotgames.com"
  else if r == "KR" then some "kr.api.riotgames.com"
  else if r == "LA1" then some "la1.api.riotgames.com"
  else if r == "LA2" then some "la2.api.riotgames.com"
  else if r == "NA1" then some "na1.api.riotgames.com"
  else if r == "OC1" then some "oc1.api.riotgames.com"
  else if r == "TR1" then some "tr1.api.riotgames.com"
  else if r == "RU" then some "ru.api.riotgames.com"
  else if r == "PH2" then some "ph2.api.riotgames.com"
  else if r == "SG2" then some "sg2.api.riotgames.com"
  else if r == "TH2" then some "th2.api.riotgames.com"
  else if r == "TW2" then some "tw2.api.riotgames.com"
  else if r == "VN2" then some "vn2.api.riotgames.com"
  else none

/-- `getChampionKey` (api/index.js lines 108–113): looks the display name up
in `championKeyMap`; JS `if (championKeyMap[champName])` tests truthiness of
the mapped value, so an empty-string mapping also falls back to the input. -/
def getChampionKey (championKeyMap : String → Option String) (champName : String) : String :=
  match championKeyMap champName with
  | some k => if k == "" then champName else k
  | none => champName

/-- `convertBanIdsToImageKeys` (api/index.js lines 115–117):
`banIds.map(id => championIdMap[id] || 'Unknown')`. -/
def convertBanIdsToImageKeys (championIdMap : Nat → Option String)
    (banIds : List Nat) : List String :=
  banIds.map (fun id => (championIdMap id).getD "Unknown")

/-- JS `String.prototype.toLowerCase()` on the ASCII names used here:
lowercases each character. -/
def jsToLower (s : String) : String :=
  String.mk (s.data.map Char.toLower)

/-- The case-insensitive ban membership test used at api/index.js lines 191
and 222: `bans.some(ban => ban.toLowerCase() === key.toLowerCase())`. -/
def champBannedIn (bans : List String) (key : String) : Bool :=
  bans.any (fun ban => jsToLower ban == jsToLower key)

/-- The `IN GAME (M:SS)` status message built at api/index.js line 194:
minutes by `Math.floor` (floor division) and seconds by JS `%` (remainder
truncated toward zero, `Int.tmod`), zero-padded to two digits. -/
def inGameMessage (elapsedSeconds : Int) : String :=
  "IN GAME (" ++ toString (Int.fdiv elapsedSeconds 60) ++ ":"
    ++ padStart 2 '0' (toString (Int.tmod elapsedSeconds 60)) ++ ")"

/-! ### Upstream response bodies (parsed JSON shapes) -/

/-- Body of the account-v1 lookup: only `puuid` is read. -/
structure AccountData where
  puuid : String
  deriving Repr, DecidableEq, Inhabited

/-- Body of the summoner-v4 lookup: only `profileIconId` is read. -/
structure SummonerData where
  profileIconId : Nat
  deriving Repr, DecidableEq, Inhabited

/-- One entry of `liveGameData.bannedChampions`. -/
structure BannedChampion where
  teamId : Nat
  championId : Nat
  deriving Repr, DecidableEq, Inhabited

/-- One entry of `liveGameData.participants` (spectator-v5 shape).  The
serverless variant reads `riotId`; the Express variant reads
`summonerName`/`summonerId`. -/
structure LiveParticipant where
  teamId : Nat
  riotId : String
  summonerName : String
  summonerId : String
  championId : Nat
  deriving Repr, DecidableEq, Inhabited

/-- Body of the spectator-v5 lookup. -/
structure LiveGameData where
  gameStartTime : Int
  bannedChampions : List BannedChampion
  participants : List LiveParticipant
  deriving Repr, DecidableEq, Inhabited

/-- One entry of `info.teams[i].bans`. -/
structure BanEntry where
  championId : Nat
  deriving Repr, DecidableEq, Inhabited

/-- One entry of `info.teams`. -/
structure TeamEntry where
  bans : List BanEntry
  deriving Repr, DecidableEq, Inhabited

/-- One entry of `info.participants` (match-v5 shape). -/
structure MatchParticipant where
  puuid : String
  riotIdGameName : String
  riotIdTagline : String
  championName : String
  teamId : Nat
  kills : Nat
  deaths : Nat
  assists : Nat
  win : Bool
  deriving Repr, DecidableEq, Inhabited

/-- The `info` section of a raw match-v5 record.  `gameEndTimestamp` may be
absent (the code guards on it).  Well-formed records carry exactly two
entries in `teams`; the JS indexes `teams[0]`/`teams[1]` directly. -/
structure MatchInfo where
  gameEndTimestamp : Option Int
  teams : List TeamEntry
  participants : List MatchParticipant
  deriving Repr, DecidableEq, Inhabited

/-- A raw match-v5 record; `info` may be missing (the code checks
`!finalMatchData.info`). -/
structure MatchData where
  info : Option MatchInfo
  deriving Repr, DecidableEq, Inhabited

/-- An upstream HTTP response: its status code and (when consulted, which the
code only does on `ok` responses) the parsed JSON body. -/
structure NetResp (α : Type) where
  status : Nat
  body : α
  deriving Repr, DecidableEq, Inhabited

/-! ### View-model output shapes -/

/-- A roster entry (`{gameName, tagLine, championPlayed}`). -/
structure TeamMember where
  gameName : String
  tagLine : String
  championPlayed : String
  deriving Repr, DecidableEq, Inhabited

/-- Result of `processMatchData` (the `CompletedMatchSummary` of the spec). -/
structure MatchSummary where
  win : Bool
  championPlayed : String
  kda : String
  team1Bans : List String
  team2Bans : List String
  team1 : List TeamMember
  team2 : List TeamMember
  deriving Repr, DecidableEq, Inhabited

/-- The `liveGameDetails` object built in the IN_GAME branch. -/
structure LiveGameDetails where
  gameStartTime : Int
  team1Bans : List String
  team2Bans : List String
  team1 : List TeamMember
  team2 : List TeamMember
  deriving Repr, DecidableEq, Inhabited

/-- The status object returned by `getPlayerStatus`.  Fields that a given
branch leaves out of the JS object literal, or sets to `null`, are `none`. -/
structure PlayerStatus where
  status : String
  statusMessage : String
  id : Option String := none
  isChampBanned : Option Bool := none
  profileIconUrl : Option String := none
  liveGameDetails : Option LiveGameDetails := none
  lastMatchDetails : Option MatchSummary := none
  deriving Repr, DecidableEq, Inhabited

/-! ### Match Result Projector -/

/-- JS `riotId.split('#')[0]`. -/
def riotIdName (s : String) : String :=
  (s.splitOn "#").getD 0 ""

/-- JS `riotId.split('#')[1]` interpolated into a template literal: when the
string has no `#`, index 1 is `undefined` and renders as "undefined". -/
def riotIdTag (s : String) : String :=
  (s.splitOn "#").getD 1 "undefined"

/-- The roster entry built for one match participant
(api/index.js lines 132–136). -/
def matchRosterEntry (championKeyMap : String → Option String)
    (p : MatchParticipant) : TeamMember :=
  { gameName := p.riotIdGameName
    tagLine := "#" ++ p.riotIdTagline
    championPlayed := getChampionKey championKeyMap p.championName }

/-- The loop at api/index.js lines 131–147 keeps the stats of the LAST
participant whose `puuid` matches the tracked account id. -/
def findTracked (puuid : String) (ps : List MatchParticipant) :
    Option MatchParticipant :=
  ps.foldl (fun acc p => if p.puuid == puuid then some p else acc) none

/-- The non-null body of `processMatchData` (api/index.js lines 122–158),
applied once the `info` section is known to exist. -/
def summarizeMatch (championIdMap : Nat → Option String)
    (championKeyMap : String → Option String)
    (info : MatchInfo) (puuid : String) : MatchSummary :=
  let team1BanIds := ((info.teams.getD 0 { bans := [] }).bans).map (·.championId)
  let team2BanIds := ((info.teams.getD 1 { bans := [] }).bans).map (·.championId)
  let tracked := findTracked puuid info.participants
  { win := (tracked.map (·.win)).getD false
    championPlayed :=
      match tracked with
      | some p => getChampionKey championKeyMap p.championName
      | none => "Unknown"
    kda :=
      match tracked with
      | some p =>
          toString p.kills ++ "/" ++ toString p.deaths ++ "/" ++ toString p.assists
      | none => "N/A"
    team1Bans := convertBanIdsToImageKeys championIdMap team1BanIds
    team2Bans := convertBanIdsToImageKeys championIdMap team2BanIds
    team1 := (info.participants.filter (fun p => p.teamId == 100)).map
      (matchRosterEntry championKeyMap)
    team2 := (info.participants.filter (fun p => !(p.teamId == 100))).map
      (matchRosterEntry championKeyMap) }

/-- `processMatchData` (api/index.js lines 120–159): returns `null` when the
record or its `info` section is missing, otherwise the summary. -/
def processMatchData (championIdMap : Nat → Option String)
    (championKeyMap : String → Option String)
    (matchData : Option MatchData) (puuid : String) : Option MatchSummary :=
  match matchData with
  | none => none
  | some d =>
    match d.info with
    | none => none
    | some info => some (summarizeMatch championIdMap championKeyMap info puuid)

/-! ### Player Status Resolver -/

/-- Tags for the five upstream endpoints `getPlayerStatus` can hit, used to
record which outbound network calls were attempted. -/
inductive ApiCall where
  | account
  | summoner
  | spectator
  | matchIds
  | matchDetail
  deriving Repr, DecidableEq, Inhabited

/-- `authenticatedFetch` (api/index.js lines 61–71): with the credential
missing it short-circuits to a synthetic `{ok:false, status:500}` response
without touching the network; otherwise it performs the call and the world
supplies the response. -/
def authenticatedFetch {α : Type} [Inhabited α] (apiKey : Option String)
    (live : NetResp α) : NetResp α :=
  if keyMissing apiKey then { status := 500, body := default } else live

/-- The outbound calls actually performed for a branch whose code attempted
`calls` in order: with the credential missing, `authenticatedFetch` performs
none of them; otherwise all. -/
def netLog (apiKey : Option String) (calls : List ApiCall) : List ApiCall :=
  if keyMissing apiKey then [] else calls

/-- The per-call environment of the resolver: the credential and the
module-level caches (`championIdMap`, `championKeyMap`,
`LATEST_PATCH_VERSION`) plus the clock `Date.now()`. -/
structure ResolverEnv where
  apiKey : Option String
  championIdMap : Nat → Option String
  championKeyMap : String → Option String
  patch : String
  now : Int

/-- One upstream response per endpoint `getPlayerStatus` may consult: the
behaviour of the outside world during one resolver run. -/
structure World where
  accountResp : NetResp AccountData
  summonerResp : NetResp SummonerData
  spectatorResp : NetResp LiveGameData
  matchIdsResp : NetResp (List String)
  matchDetailResp : NetResp MatchData

/-- `HIGH_RISK_MINUTES` (api/index.js line 14). -/
def HIGH_RISK_MINUTES : Int := 15

/-- The profile icon URL built at api/index.js line 177. -/
def profileIconUrlOf (patch : String) (profileIconId : Nat) : String :=
  "https://ddragon.leagueoflegends.com/cdn/" ++ patch
    ++ "/img/profileicon/" ++ toString profileIconId ++ ".png"

/-- The roster entry built for one live-game participant
(api/index.js lines 199–200). -/
def liveRosterEntry (championIdMap : Nat → Option String)
    (p : LiveParticipant) : TeamMember :=
  { gameName := riotIdName p.riotId
    tagLine := "#" ++ riotIdTag p.riotId
    championPlayed := (championIdMap p.championId).getD "Unknown" }

/-- `getPlayerStatus`, serverless variant (api/index.js lines 162–241).
Returns the status object together with the list of outbound network calls
attempted during the run. -/
def getPlayerStatus (env : ResolverEnv) (w : World)
    (region gameName tagLine champToTrack : String) :
    PlayerStatus × List ApiCall :=
  let playerId := region ++ "-" ++ gameName ++ "-" ++ tagLine
  let accountResponse := authenticatedFetch env.apiKey w.accountResp
  if !respOk accountResponse.status then
    if accountResponse.status == 500 then
      ({ status := "ERROR", statusMessage := "Server API Key Error",
         id := some playerId }, netLog env.apiKey [.account])
    else
      ({ status := "ERROR", statusMessage := "Player Not Found",
         id := some playerId }, netLog env.apiKey [.account])
  else
    let puuid := accountResponse.body.puuid
    let summonerResponse := authenticatedFetch env.apiKey w.summonerResp
    if !respOk summonerResponse.status then
      ({ status := "ERROR", statusMessage := "Summoner Not Found",
         id := some playerId }, netLog env.apiKey [.account, .summoner])
    else
      let profileIconUrl :=
        profileIconUrlOf env.patch summonerResponse.body.profileIconId
      let key0 := getChampionKey env.championKeyMap champToTrack
      let champImageKey := if key0 == "" then champToTrack else key0
      let liveGameResponse := authenticatedFetch env.apiKey w.spectatorResp
      if respOk liveGameResponse.status then
        let liveGameData := liveGameResponse.body
        let gameStartTime := liveGameData.gameStartTime
        let elapsedSeconds := Int.fdiv (env.now - gameStartTime) 1000
        let blueBanIds :=
          (liveGameData.bannedChampions.filter (fun b => b.teamId == 100)).map
            (·.championId)
        let redBanIds :=
          (liveGameData.bannedChampions.filter (fun b => b.teamId == 200)).map
            (·.championId)
        let blueBans := convertBanIdsToImageKeys env.championIdMap blueBanIds
        let redBans := convertBanIdsToImageKeys env.championIdMap redBanIds
        let champBanned := champBannedIn (blueBans ++ redBans) champImageKey
        ({ status := "IN_GAME"
           statusMessage := inGameMessage elapsedSeconds
           isChampBanned := some champBanned
           profileIconUrl := some profileIconUrl
           liveGameDetails := some
             { gameStartTime := gameStartTime
               team1Bans := blueBans
               team2Bans := redBans
               team1 := (liveGameData.participants.filter
                 (fun p => p.teamId == 100)).map
                   (liveRosterEntry env.championIdMap)
               team2 := (liveGameData.participants.filter
                 (fun p => p.teamId == 200)).map
                   (liveRosterEntry env.championIdMap) } },
         netLog env.apiKey [.account, .summoner, .spectator])
      else
        let matchListResponse := authenticatedFetch env.apiKey w.matchIdsResp
        let matchList :=
          if respOk matchListResponse.status then matchListResponse.body else []
        if matchList.length == 0 then
          ({ status := "LOW_RISK", statusMessage := "No recent games",
             isChampBanned := none, profileIconUrl := some profileIconUrl },
           netLog env.apiKey [.account, .summoner, .spectator, .matchIds])
        else
          let matchDataResponse :=
            authenticatedFetch env.apiKey w.matchDetailResp
          let finalMatchData :=
            if respOk matchDataResponse.status then some matchDataResponse.body
            else none
          let fullLog :=
            netLog env.apiKey
              [.account, .summoner, .spectator, .matchIds, .matchDetail]
          match finalMatchData with
          | none =>
            ({ status := "ERROR", statusMessage := "Match History Error",
               isChampBanned := none, profileIconUrl := some profileIconUrl },
             fullLog)
          | some md =>
            match md.info with
            | none =>
              ({ status := "ERROR", statusMessage := "Match History Error",
                 isChampBanned := none, profileIconUrl := some profileIconUrl },
               fullLog)
            | some info =>
              let minutesAgo : Int :=
                match info.gameEndTimestamp with
                | some t =>
                  if t > 0 then Int.fdiv (env.now - t) 60000 else 0
                | none => 0
              let fullMatchDetails :=
                summarizeMatch env.championIdMap env.championKeyMap info puuid
              let champBanned :=
                champBannedIn
                  (fullMatchDetails.team1Bans ++ fullMatchDetails.team2Bans)
                  champImageKey
              let formattedTime := formatTimeAgo minutesAgo
              if minutesAgo ≤ HIGH_RISK_MINUTES then
                ({ status := "HIGH_RISK"
                   statusMessage := "HIGH RISK (" ++ formattedTime ++ ")"
                   isChampBanned := some champBanned
                   profileIconUrl := some profileIconUrl
                   lastMatchDetails := some fullMatchDetails }, fullLog)
              else
                ({ status := "LOW_RISK"
                   statusMessage := "LOW RISK (" ++ formattedTime ++ ")"
                   isChampBanned := some champBanned
                   profileIconUrl := some profileIconUrl
                   lastMatchDetails := some fullMatchDetails }, fullLog)

/-! ### Express-variant resolver (second half of api/index.js) -/

/-- The Express variant's inner `authenticatedFetch` (index.js lines
486–490): it performs the fetch unconditionally — there is NO check that the
credential is configured before going to the network. -/
def expressAuthenticatedFetch {α : Type} (live : NetResp α) : NetResp α :=
  live

/-- The roster entry built for one live-game participant in the Express
variant (index.js lines 536, 539): `summonerName || summonerId` with JS
string falsiness, and an empty tag line. -/
def expressLiveRosterEntry (championIdMap : Nat → Option String)
    (p : LiveParticipant) : TeamMember :=
  { gameName := if p.summonerName == "" then p.summonerId else p.summonerName
    tagLine := ""
    championPlayed := (championIdMap p.championId).getD "Unknown" }

/-- `getPlayerStatus`, Express variant (index.js lines 481–608).  Every
`authenticatedFetch` reaches the network regardless of whether the
credential is configured, so every attempted call is logged.  The account
failure path has no special 500 case, and a 403 spectator response turns the
HIGH_RISK message into "BE CAREFUL" with a null ban flag. -/
def expressGetPlayerStatus (env : ResolverEnv) (w : World)
    (region gameName tagLine champToTrack : String) :
    PlayerStatus × List ApiCall :=
  let playerId := region ++ "-" ++ gameName ++ "-" ++ tagLine
  let accountResponse := expressAuthenticatedFetch w.accountResp
  if !respOk accountResponse.status then
    ({ status := "ERROR", statusMessage := "Player Not Found",
       id := some playerId }, [.account])
  else
    let puuid := accountResponse.body.puuid
    let summonerResponse := expressAuthenticatedFetch w.summonerResp
    if !respOk summonerResponse.status then
      ({ status := "ERROR", statusMessage := "Summoner Not Found",
         id := some playerId }, [.account, .summoner])
    else
      let profileIconUrl :=
        profileIconUrlOf env.patch summonerResponse.body.profileIconId
      let key0 := getChampionKey env.championKeyMap champToTrack
      let champImageKey := if key0 == "" then champToTrack else key0
      let liveGameResponse := expressAuthenticatedFetch w.spectatorResp
      if respOk liveGameResponse.status then
        let liveGameData := liveGameResponse.body
        let gameStartTime := liveGameData.gameStartTime
        let elapsedSeconds := Int.fdiv (env.now - gameStartTime) 1000
        let blueBanIds :=
          (liveGameData.bannedChampions.filter (fun b => b.teamId == 100)).map
            (·.championId)
        let redBanIds :=
          (liveGameData.bannedChampions.filter (fun b => b.teamId == 200)).map
            (·.championId)
        let blueBans := convertBanIdsToImageKeys env.championIdMap blueBanIds
        let redBans := convertBanIdsToImageKeys env.championIdMap redBanIds
        let champBanned := champBannedIn (blueBans ++ redBans) champImageKey
        ({ status := "IN_GAME"
           statusMessage := inGameMessage elapsedSeconds
           isChampBanned := some champBanned
           profileIconUrl := some profileIconUrl
           liveGameDetails := some
             { gameStartTime := gameStartTime
               team1Bans := blueBans
               team2Bans := redBans
               team1 := (liveGameData.participants.filter
                 (fun p => p.teamId == 100)).map
                   (expressLiveRosterEntry env.championIdMap)
               team2 := (liveGameData.participants.filter
                 (fun p => p.teamId == 200)).map
                   (expressLiveRosterEntry env.championIdMap) } },
         [.account, .summoner, .spectator])
      else
        let matchListResponse := expressAuthenticatedFetch w.matchIdsResp
        let matchList :=
          if respOk matchListResponse.status then matchListResponse.body else []
        if matchList.length == 0 then
          ({ status := "LOW_RISK", statusMessage := "No recent games",
             isChampBanned := none, profileIconUrl := some profileIconUrl },
           [.account, .summoner, .spectator, .matchIds])
        else
          let matchDataResponse := expressAuthenticatedFetch w.matchDetailResp
          let finalMatchData :=
            if respOk matchDataResponse.status then some matchDataResponse.body
            else none
          let fullLog : List ApiCall :=
            [.account, .summoner, .spectator, .matchIds, .matchDetail]
          match finalMatchData with
          | none =>
            ({ status := "ERROR", statusMessage := "Match History Error",
               isChampBanned := none, profileIconUrl := some profileIconUrl },
             fullLog)
          | some md =>
            match md.info with
            | none =>
              ({ status := "ERROR", statusMessage := "Match History Error",
                 isChampBanned := none, profileIconUrl := some profileIconUrl },
               fullLog)
            | some info =>
              let minutesAgo : Int :=
                match info.gameEndTimestamp with
                | some t =>
                  if t > 0 then Int.fdiv (env.now - t) 60000 else 0
                | none => 0
              let fullMatchDetails :=
                summarizeMatch env.championIdMap env.championKeyMap info puuid
              let champBanned :=
                champBannedIn
                  (fullMatchDetails.team1Bans ++ fullMatchDetails.team2Bans)
                  champImageKey
              let formattedTime := formatTimeAgo minutesAgo
              if minutesAgo ≤ HIGH_RISK_MINUTES then
                if liveGameResponse.status == 403 then
                  ({ status := "HIGH_RISK"
                     statusMessage := "BE CAREFUL (" ++ formattedTime ++ ")"
                     isChampBanned := none
                     profileIconUrl := some profileIconUrl
                     lastMatchDetails := some fullMatchDetails }, fullLog)
                else
                  ({ status := "HIGH_RISK"
                     statusMessage := "HIGH RISK (" ++ formattedTime ++ ")"
                     isChampBanned := some champBanned
                     profileIconUrl := some profileIconUrl
                     lastMatchDetails := some fullMatchDetails }, fullLog)
              else
                ({ status := "LOW_RISK"
                   statusMessage := "LOW RISK (" ++ formattedTime ++ ")"
                   isChampBanned := some champBanned
                   profileIconUrl := some profileIconUrl
                   lastMatchDetails := some fullMatchDetails }, fullLog)

/-! ### Lightweight radar handler (api/check-radar-players-status.js) -/

/-- One entry of the radar request body. -/
structure RadarPlayer where
  puuid : String
  region : String
  deriving Repr, DecidableEq, Inhabited

/-- One entry of the radar response body. -/
structure RadarResult where
  puuid : String
  status : String
  deriving Repr, DecidableEq, Inhabited

/-- The spectator URL built at check-radar-players-status.js line 72. -/
def spectatorUrl (platform puuid : String) : String :=
  "https://" ++ platform ++ "/lol/spectator/v5/active-games/by-summoner/"
    ++ puuid

/-- One iteration of the radar loop (check-radar-players-status.js lines
65–90).  An unknown region short-circuits to ERROR without a fetch; this
file's `authenticatedFetch` (lines 33–41) synthesizes a 500 without a fetch
when the credential is missing; otherwise the world (`net`, mapping the URL
to an HTTP status code) answers: 2xx → IN_GAME, 404 → NOT_IN_GAME,
500 → ERROR, anything else (403, 429, …) → ERROR.  The second component
lists the outbound network calls actually performed. -/
def radarCheckOne (apiKey : Option String) (net : String → Nat)
    (p : RadarPlayer) : RadarResult × List String :=
  match getPlatformUrl p.region with
  | none => ({ puuid := p.puuid, status := "ERROR" }, [])
  | some platform =>
    let url := spectatorUrl platform p.puuid
    let st := if keyMissing apiKey then 500 else net url
    let log := if keyMissing apiKey then [] else [url]
    if respOk st then ({ puuid := p.puuid, status := "IN_GAME" }, log)
    else if st == 404 then ({ puuid := p.puuid, status := "NOT_IN_GAME" }, log)
    else if st == 500 then ({ puuid := p.puuid, status := "ERROR" }, log)
    else ({ puuid := p.puuid, status := "ERROR" }, log)

/-- The radar POST handler (check-radar-players-status.js lines 56–92): a
missing or non-array `players` field is rejected with HTTP 400 before any
upstream call; otherwise each player is checked in order. -/
def radarHandler (apiKey : Option String) (net : String → Nat)
    (body : Option (List RadarPlayer)) :
    Except Nat (List RadarResult) × List String :=
  match body with
  | none => (Except.error 400, [])
  | some players =>
    (Except.ok (players.map fun p => (radarCheckOne apiKey net p).1),
     (players.map fun p => (radarCheckOne apiKey net p).2).flatten)

/-! ### Batch orchestrator (api/index.js lines 245–294) -/

/-- One entry of the batch request body's `players` array. -/
structure PlayerReq where
  id : String
  region : String
  gameName : String
  tagLine : String
  deriving Repr, DecidableEq, Inhabited

/-- The batch loop (api/index.js lines 273–280): resolves each player in
input order and tags the result with the INPUT player's `id`
(`{ ...status, id: player.id }` overrides whatever `id` the resolver set).
`worldOf` supplies the upstream responses seen while resolving each
player. -/
def batchStatuses (env : ResolverEnv) (worldOf : PlayerReq → World)
    (players : List PlayerReq) (champToTrack : String) : List PlayerStatus :=
  players.map fun pl =>
    { (getPlayerStatus env (worldOf pl) pl.region pl.gameName pl.tagLine
        champToTrack).1 with id := some pl.id }

/-- The POST path of the batch handler (api/index.js lines 258–288): a
missing credential is rejected with HTTP 500 before the loop; otherwise the
collected statuses are returned with HTTP 200. -/
def checkStatusHandler (env : ResolverEnv) (worldOf : PlayerReq → World)
    (players : List PlayerReq) (champToTrack : String) :
    Except Nat (List PlayerStatus) :=
  if keyMissing env.apiKey then Except.error 500
  else Except.ok (batchStatuses env worldOf players champToTrack)

/-! ### Concrete fixtures for witnesses and counterexamples -/

/-- An environment with the credential configured and empty asset caches. -/
def envWithKey : ResolverEnv :=
  { apiKey := some "RGAPI-test"
    championIdMap := fun _ => none
    championKeyMap := fun _ => none
    patch := "15.21.1"
    now := 1000000000 }

/-- An environment with the credential absent. -/
def envNoKey : ResolverEnv :=
  { envWithKey with apiKey := none }

/-- Account lookup succeeding with a fixed puuid. -/
def okAccount : NetResp AccountData :=
  { status := 200, body := { puuid := "puuid-1" } }

/-- Summoner lookup succeeding with a fixed profile icon. -/
def okSummoner : NetResp SummonerData :=
  { status := 200, body := { profileIconId := 7 } }

/-- A world where the player is not live and has no completed matches. -/
def wNoGames : World :=
  { accountResp := okAccount
    summonerResp := okSummoner
    spectatorResp := { status := 404, body := default }
    matchIdsResp := { status := 200, body := [] }
    matchDetailResp := { status := 404, body := default } }

/-- A world where the match-id-list fetch itself fails (HTTP 429). -/
def wMatchIdsFail : World :=
  { wNoGames with matchIdsResp := { status := 429, body := [] } }

/-- A completed-match record whose game ended at time `t`. -/
def matchEndedAt (t : Int) : MatchData :=
  { info := some
      { gameEndTimestamp := some t
        teams := [{ bans := [] }, { bans := [] }]
        participants := [] } }

/-- A world whose last match ended exactly 15 minutes before
`envWithKey.now`. -/
def wEnded15 : World :=
  { wNoGames with
    matchIdsResp := { status := 200, body := ["M1"] }
    matchDetailResp := { status := 200, body := matchEndedAt 999100000 } }

/-- A world whose last match ended exactly 16 minutes before
`envWithKey.now`. -/
def wEnded16 : World :=
  { wNoGames with
    matchIdsResp := { status := 200, body := ["M1"] }
    matchDetailResp := { status := 200, body := matchEndedAt 999040000 } }

/-- A world in which the account lookup fails with 401 — what an
unauthenticated request to the upstream API produces. -/
def wAuthFail : World :=
  { wNoGames with accountResp := { status := 401, body := default } }

/-- A world whose spectator lookup reports a live match that started 60
seconds AFTER the current clock (`envWithKey.now = 1000000000`). -/
def wLiveFuture : World :=
  { wNoGames with
    spectatorResp :=
      { status := 200
        body := { gameStartTime := 1000060000, bannedChampions := [],
                  participants := [] } } }

/-- A world whose spectator lookup reports a live match that started 60
seconds before the current clock. -/
def wLivePast : World :=
  { wNoGames with
    spectatorResp :=
      { status := 200
        body := { gameStartTime := 999940000, bannedChampions := [],
                  participants := [] } } }

/-- A match-info section whose only participant is NOT the tracked player
and whose two ban ids are unmapped by the (empty) asset cache. -/
def infoSample : MatchInfo :=
  { gameEndTimestamp := some 999100000
    teams := [{ bans := [{ championId := 1 }] },
              { bans := [{ championId := 2 }] }]
    participants := [{ puuid := "other", riotIdGameName := "Bob",
                       riotIdTagline := "t", championName := "Ahri",
                       teamId := 100, kills := 1, deaths := 2, assists := 3,
                       win := true }] }

/-- The per-player radar status as the spec states it (§6, lightweight radar
check): IN_GAME on a 2xx spectator response, NOT_IN_GAME on 404, and ERROR
for every other outcome — an unrecognized region, a missing-credential
synthetic 500, or any other status (403, 429, …).  Stated from the spec's
words, to be compared with `radarCheckOne` from the source. -/
def radarStatusSpec (apiKey : Option String) (net : String → Nat)
    (p : RadarPlayer) : String :=
  match getPlatformUrl p.region with
  | none => "ERROR"
  | some platform =>
    if keyMissing apiKey then "ERROR"
    else
      let st := net (spectatorUrl platform p.puuid)
      if 200 ≤ st ∧ st < 300 then "IN_GAME"
      else if st = 404 then "NOT_IN_GAME"
      else "ERROR"

/-- A sample radar request: one valid region (answered 404) and one unknown
region. -/
def radarPlayersSample : List RadarPlayer :=
  [{ puuid := "p1", region := "NA1" }, { puuid := "p2", region := "XX9" }]

/-- A sample one-player batch request. -/
def playersSample : List PlayerReq :=
  [{ id := "slot-1", region := "NA1", gameName := "Alice", tagLine := "tag" }]

/-- When no participant carries the tracked puuid, the tracking loop finds
nothing. -/
lemma findTracked_eq_none (puuid : String) (ps : List MatchParticipant)
    (h : ∀ p ∈ ps, p.puuid ≠ puuid) : findTracked puuid ps = none := by
  induction ps with
  | nil => rfl
  | cons p ps ih =>
    have hp : p.puuid ≠ puuid := h p (by simp)
    have hrest : ∀ q ∈ ps, q.puuid ≠ puuid := fun q hq => h q (by simp [hq])
    unfold findTracked at ih ⊢
    simpa [hp] using ih hrest

/-- The radar loop body agrees with the spec's per-player classification. -/
lemma radarCheckOne_fst (apiKey : Option String) (net : String → Nat)
    (p : RadarPlayer) :
    (radarCheckOne apiKey net p).1
      = { puuid := p.puuid, status := radarStatusSpec apiKey net p } := by
  unfold radarCheckOne radarStatusSpec
  cases h : getPlatformUrl p.region with
  | none => simp
  | some platform =>
    by_cases hk : keyMissing apiKey = true
    · simp [hk, respOk]
    · have hk' : keyMissing apiKey = false := by
        cases hkm : keyMissing apiKey
        · rfl
        · exact absurd hkm hk
      by_cases h2 : respOk (net (spectatorUrl platform p.puuid)) = true
      · have hp : 200 ≤ net (spectatorUrl platform p.puuid)
            ∧ net (spectatorUrl platform p.puuid) < 300 := by
          simpa [respOk] using h2
        simp [hk', h2, hp]
      · have hp : ¬(200 ≤ net (spectatorUrl platform p.puuid)
            ∧ net (spectatorUrl platform p.puuid) < 300) := by
          simpa [respOk] using h2
        by_cases h404 : net (spectatorUrl platform p.puuid) = 404
        · simp [hk', h2, hp, h404, respOk]
        · by_cases h500 : net (spectatorUrl platform p.puuid) = 500
          · simp [hk', h2, hp, h404, h500, respOk]
          · simp [hk', h2, hp, h404, h500]

/-- The spec classifier only ever produces one of the three statuses. -/
lemma radarStatusSpec_mem (apiKey : Option String) (net : String → Nat)
    (p : RadarPlayer) :
    radarStatusSpec apiKey net p
      ∈ (["IN_GAME", "NOT_IN_GAME", "ERROR"] : List String) := by
  unfold radarStatusSpec
  cases getPlatformUrl p.region with
  | none => simp
  | some platform =>
    by_cases hk : keyMissing apiKey = true
    · simp [hk]
    · have hk' : keyMissing apiKey = false := by
        cases hkm : keyMissing apiKey
        · rfl
        · exact absurd hkm hk
      simp only [hk', Bool.false_eq_true, if_false]
      split
      · simp
      · split
        · simp
        · simp

/-! ## Claims -/

/-- C3: `formatTimeAgo(0) = "Just now"`; for 1 ≤ m < 60 the output is
"{m}m ago"; for 60 ≤ m < 1440 it is "{floor(m/60)}h ago"; for m ≥ 1440 it is
"{floor(m/1440)}d ago". -/
theorem c3_formatTimeAgo_buckets (m1 m2 m3 : Int)
    (h1 : 1 ≤ m1) (h1u : m1 < 60)
    (h2 : 60 ≤ m2) (h2u : m2 < 1440)
    (h3 : 1440 ≤ m3) :
    formatTimeAgo 0 = "Just now"
      ∧ formatTimeAgo m1 = toString m1 ++ "m ago"
      ∧ formatTimeAgo m2 = toString (Int.fdiv m2 60) ++ "h ago"
      ∧ formatTimeAgo m3 = toString (Int.fdiv m3 1440) ++ "d ago" := by
  have ediv60 : ∀ a : Int, Int.fdiv a 60 = a / 60 := fun a =>
    Int.fdiv_eq_ediv a (by norm_num)
  have ediv24 : ∀ a : Int, Int.fdiv a 24 = a / 24 := fun a =>
    Int.fdiv_eq_ediv a (by norm_num)
  have ediv1440 : ∀ a : Int, Int.fdiv a 1440 = a / 1440 := fun a =>
    Int.fdiv_eq_ediv a (by norm_num)
  refine ⟨rfl, ?_, ?_, ?_⟩
  · have e0 : (m1 == 0) = false := by simp only [beq_eq_false_iff_ne]; omega
    unfold formatTimeAgo
    rw [e0]
    simp only [Bool.false_eq_true, if_false, if_pos h1u]
  · have e0 : (m2 == 0) = false := by simp only [beq_eq_false_iff_ne]; omega
    have n60 : ¬ (m2 < 60) := by omega
    have lt24 : Int.fdiv m2 60 < 24 := by rw [ediv60]; omega
    unfold formatTimeAgo
    rw [e0]
    simp only [Bool.false_eq_true, if_false, if_neg n60, if_pos lt24]
  · have e0 : (m3 == 0) = false := by simp only [beq_eq_false_iff_ne]; omega
    have n60 : ¬ (m3 < 60) := by omega
    have n24 : ¬ (Int.fdiv m3 60 < 24) := by rw [ediv60]; omega
    unfold formatTimeAgo
    rw [e0]
    simp only [Bool.false_eq_true, if_false, if_neg n60, if_neg n24]
    have : Int.fdiv (Int.fdiv m3 60) 24 = Int.fdiv m3 1440 := by
      rw [ediv60, ediv24, ediv1440]; omega
    rw [this]

/-- Witness for C3 at m1 = 5, m2 = 100, m3 = 2000. -/
theorem c3_witness :
    formatTimeAgo 0 = "Just now"
      ∧ formatTimeAgo 5 = toString (5 : Int) ++ "m ago"
      ∧ formatTimeAgo 100 = toString (Int.fdiv (100 : Int) 60) ++ "h ago"
      ∧ formatTimeAgo 2000 = toString (Int.fdiv (2000 : Int) 1440) ++ "d ago" :=
  c3_formatTimeAgo_buckets 5 100 2000 (by decide) (by decide) (by decide)
    (by decide) (by decide)

/-- C5: the watched-champion ban membership test is case-insensitive — a
champion is reported banned exactly when some entry of the ban list equals
the watched key after lowercasing both sides; in particular watched "Ahri"
matches a list containing "ahri". -/
theorem c5_ban_case_insensitive (bans : List String) (key : String) :
    (champBannedIn bans key = true ↔ ∃ b ∈ bans, jsToLower b = jsToLower key)
      ∧ champBannedIn ["ahri"] "Ahri" = true := by
  constructor
  · unfold champBannedIn
    rw [List.any_eq_true]
    constructor
    · rintro ⟨b, hb, hbeq⟩
      exact ⟨b, hb, by simpa using hbeq⟩
    · rintro ⟨b, hb, hbeq⟩
      exact ⟨b, hb, by simpa using hbeq⟩
  · decide

/-- C6: with no live match and an empty completed-match id list, the result
is LOW_RISK with message "No recent games", a null ban flag and no
completed-match summary. -/
theorem c6_no_recent_games (env : ResolverEnv) (w : World)
    (region gameName tagLine champ : String)
    (hkey : keyMissing env.apiKey = false)
    (hacc : respOk w.accountResp.status = true)
    (hsum : respOk w.summonerResp.status = true)
    (hspec : respOk w.spectatorResp.status = false)
    (hml : respOk w.matchIdsResp.status = true)
    (hempty : w.matchIdsResp.body = []) :
    (getPlayerStatus env w region gameName tagLine champ).1.status = "LOW_RISK"
      ∧ (getPlayerStatus env w region gameName tagLine champ).1.statusMessage
          = "No recent games"
      ∧ (getPlayerStatus env w region gameName tagLine champ).1.isChampBanned
          = none
      ∧ (getPlayerStatus env w region gameName tagLine champ).1.lastMatchDetails
          = none := by
  simp [getPlayerStatus, authenticatedFetch, netLog, hkey, hacc, hsum, hspec,
    hml, hempty]

/-- Witness for C6: concrete run with an empty match-id list. -/
theorem c6_witness :
    (getPlayerStatus envWithKey wNoGames "NA1" "Alice" "tag" "Ahri").1.status
        = "LOW_RISK"
      ∧ (getPlayerStatus envWithKey wNoGames "NA1" "Alice" "tag"
          "Ahri").1.statusMessage = "No recent games"
      ∧ (getPlayerStatus envWithKey wNoGames "NA1" "Alice" "tag"
          "Ahri").1.isChampBanned = none
      ∧ (getPlayerStatus envWithKey wNoGames "NA1" "Alice" "tag"
          "Ahri").1.lastMatchDetails = none :=
  c6_no_recent_games envWithKey wNoGames "NA1" "Alice" "tag" "Ahri"
    (by decide) (by decide) (by decide) (by decide) (by decide) (by decide)

/-- C7: a failed (non-2xx) match-id-list fetch is treated exactly like an
empty match list: LOW_RISK with message "No recent games", not an ERROR —
in both resolver variants. -/
theorem c7_matchlist_failure_low_risk (env : ResolverEnv) (w : World)
    (region gameName tagLine champ : String)
    (hkey : keyMissing env.apiKey = false)
    (hacc : respOk w.accountResp.status = true)
    (hsum : respOk w.summonerResp.status = true)
    (hspec : respOk w.spectatorResp.status = false)
    (hml : respOk w.matchIdsResp.status = false) :
    (getPlayerStatus env w region gameName tagLine champ).1.status = "LOW_RISK"
      ∧ (getPlayerStatus env w region gameName tagLine champ).1.statusMessage
          = "No recent games"
      ∧ (expressGetPlayerStatus env w region gameName tagLine champ).1.status
          = "LOW_RISK"
      ∧ (expressGetPlayerStatus env w region gameName tagLine
          champ).1.statusMessage = "No recent games" := by
  refine ⟨?_, ?_, ?_, ?_⟩ <;>
    simp [getPlayerStatus, expressGetPlayerStatus, authenticatedFetch,
      expressAuthenticatedFetch, netLog, hkey, hacc, hsum, hspec, hml]

/-- Witness for C7: concrete run whose match-id-list fetch returns 429. -/
theorem c7_witness :
    (getPlayerStatus envWithKey wMatchIdsFail "NA1" "Alice" "tag"
        "Ahri").1.status = "LOW_RISK"
      ∧ (getPlayerStatus envWithKey wMatchIdsFail "NA1" "Alice" "tag"
          "Ahri").1.statusMessage = "No recent games"
      ∧ (expressGetPlayerStatus envWithKey wMatchIdsFail "NA1" "Alice" "tag"
          "Ahri").1.status = "LOW_RISK"
      ∧ (expressGetPlayerStatus envWithKey wMatchIdsFail "NA1" "Alice" "tag"
          "Ahri").1.statusMessage = "No recent games" :=
  c7_matchlist_failure_low_risk envWithKey wMatchIdsFail "NA1" "Alice" "tag"
    "Ahri" (by decide) (by decide) (by decide) (by decide) (by decide)

/-- C2: with no live match, when the decision rule is reached the 15-minute
threshold is boundary-inclusive — a last match ended exactly 15 minutes ago
gives HIGH_RISK, 16 minutes ago gives LOW_RISK. -/
theorem c2_threshold_boundary (env : ResolverEnv) (w w' : World)
    (region gameName tagLine champ : String)
    (i i' : MatchInfo) (t t' : Int)
    (hkey : keyMissing env.apiKey = false)
    (hacc : respOk w.accountResp.status = true)
    (hsum : respOk w.summonerResp.status = true)
    (hspec : respOk w.spectatorResp.status = false)
    (hml : respOk w.matchIdsResp.status = true)
    (hne : w.matchIdsResp.body.length ≠ 0)
    (hmd : respOk w.matchDetailResp.status = true)
    (hinfo : w.matchDetailResp.body.info = some i)
    (hts : i.gameEndTimestamp = some t)
    (ht : t > 0)
    (h15 : Int.fdiv (env.now - t) 60000 = 15)
    (hacc' : respOk w'.accountResp.status = true)
    (hsum' : respOk w'.summonerResp.status = true)
    (hspec' : respOk w'.spectatorResp.status = false)
    (hml' : respOk w'.matchIdsResp.status = true)
    (hne' : w'.matchIdsResp.body.length ≠ 0)
    (hmd' : respOk w'.matchDetailResp.status = true)
    (hinfo' : w'.matchDetailResp.body.info = some i')
    (hts' : i'.gameEndTimestamp = some t')
    (ht' : t' > 0)
    (h16 : Int.fdiv (env.now - t') 60000 = 16) :
    (getPlayerStatus env w region gameName tagLine champ).1.status
        = "HIGH_RISK"
      ∧ (getPlayerStatus env w' region gameName tagLine champ).1.status
          = "LOW_RISK" := by
  constructor
  · simp [getPlayerStatus, authenticatedFetch, netLog, HIGH_RISK_MINUTES,
      hkey, hacc, hsum, hspec, hml, hne, hmd, hinfo, hts, ht, h15]
  · simp [getPlayerStatus, authenticatedFetch, netLog, HIGH_RISK_MINUTES,
      hkey, hacc', hsum', hspec', hml', hne', hmd', hinfo', hts', ht', h16]

/-- Witness for C2: concrete runs ending exactly 15 and 16 minutes ago. -/
theorem c2_witness :
    (getPlayerStatus envWithKey wEnded15 "NA1" "Alice" "tag" "Ahri").1.status
        = "HIGH_RISK"
      ∧ (getPlayerStatus envWithKey wEnded16 "NA1" "Alice" "tag"
          "Ahri").1.status = "LOW_RISK" :=
  c2_threshold_boundary envWithKey wEnded15 wEnded16 "NA1" "Alice" "tag"
    "Ahri" (matchEndedAt 999100000).info.get! (matchEndedAt 999040000).info.get!
    999100000 999040000
    (by decide) (by decide) (by decide) (by decide) (by decide) (by decide)
    (by decide) (by decide) (by decide) (by decide) (by decide)
    (by decide) (by decide) (by decide) (by decide) (by decide)
    (by decide) (by decide) (by decide) (by decide) (by decide)

/-- Counterexample to C1: in the Express variant (second half of
api/index.js) the inner `authenticatedFetch` never checks the credential, so
with the credential absent the account call IS sent to the network, and the
resulting failure is reported as "Player Not Found", not as a
configuration-error message. -/
theorem c1_counterexample :
    keyMissing envNoKey.apiKey = true
      ∧ (expressGetPlayerStatus envNoKey wAuthFail "NA1" "Alice" "tag"
          "Ahri").1.statusMessage = "Player Not Found"
      ∧ (expressGetPlayerStatus envNoKey wAuthFail "NA1" "Alice" "tag"
          "Ahri").2 = [ApiCall.account] := by
  decide

/-- C1 (amended): with the credential absent, the SERVERLESS resolver
returns status ERROR with the configuration-error message "Server API Key
Error" and attempts no outbound network call; the Express-variant resolver
instead attempts the account call on the network and maps its failure to
ERROR "Player Not Found". -/
theorem c1_amended (env : ResolverEnv) (w : World)
    (region gameName tagLine champ : String)
    (hkey : keyMissing env.apiKey = true)
    (haccfail : respOk w.accountResp.status = false) :
    getPlayerStatus env w region gameName tagLine champ
        = ({ status := "ERROR", statusMessage := "Server API Key Error",
             id := some (region ++ "-" ++ gameName ++ "-" ++ tagLine) }, [])
      ∧ (expressGetPlayerStatus env w region gameName tagLine champ).1.status
          = "ERROR"
      ∧ (expressGetPlayerStatus env w region gameName tagLine
          champ).1.statusMessage = "Player Not Found"
      ∧ (expressGetPlayerStatus env w region gameName tagLine champ).2
          = [ApiCall.account] := by
  refine ⟨?_, ?_, ?_, ?_⟩
  · simp [getPlayerStatus, authenticatedFetch, netLog, respOk, hkey]
  all_goals
    simp [expressGetPlayerStatus, expressAuthenticatedFetch, haccfail]

/-- Witness for C1 (amended): concrete run with the credential absent. -/
theorem c1_witness :
    getPlayerStatus envNoKey wAuthFail "NA1" "Alice" "tag" "Ahri"
        = ({ status := "ERROR", statusMessage := "Server API Key Error",
             id := some ("NA1" ++ "-" ++ "Alice" ++ "-" ++ "tag") }, [])
      ∧ (expressGetPlayerStatus envNoKey wAuthFail "NA1" "Alice" "tag"
          "Ahri").1.status = "ERROR"
      ∧ (expressGetPlayerStatus envNoKey wAuthFail "NA1" "Alice" "tag"
          "Ahri").1.statusMessage = "Player Not Found"
      ∧ (expressGetPlayerStatus envNoKey wAuthFail "NA1" "Alice" "tag"
          "Ahri").2 = [ApiCall.account] :=
  c1_amended envNoKey wAuthFail "NA1" "Alice" "tag" "Ahri" (by decide)
    (by decide)

/-- Counterexample to C4: the code never clamps the elapsed time, so a live
match whose reported start time lies in the future yields a NEGATIVE
elapsed-seconds value (here −60, rendered into the status message), while
the status is still IN_GAME. -/
theorem c4_counterexample :
    (getPlayerStatus envWithKey wLiveFuture "NA1" "Alice" "tag"
        "Ahri").1.status = "IN_GAME"
      ∧ Int.fdiv (envWithKey.now - 1000060000) 1000 = -60
      ∧ (getPlayerStatus envWithKey wLiveFuture "NA1" "Alice" "tag"
          "Ahri").1.statusMessage
          = inGameMessage (Int.fdiv (envWithKey.now - 1000060000) 1000) := by
  decide

/-- C4 (amended): when the spectator lookup succeeds the status is IN_GAME,
the live-match details are attached, and the elapsed seconds rendered into
the message are `floor((now − gameStartTime) / 1000)` — which is
non-negative PROVIDED the match start time does not lie in the future (the
code does not clamp it). -/
theorem c4_amended (env : ResolverEnv) (w : World)
    (region gameName tagLine champ : String)
    (hkey : keyMissing env.apiKey = false)
    (hacc : respOk w.accountResp.status = true)
    (hsum : respOk w.summonerResp.status = true)
    (hspec : respOk w.spectatorResp.status = true)
    (hstart : w.spectatorResp.body.gameStartTime ≤ env.now) :
    (getPlayerStatus env w region gameName tagLine champ).1.status = "IN_GAME"
      ∧ (getPlayerStatus env w region gameName tagLine champ).1.statusMessage
          = inGameMessage
              (Int.fdiv (env.now - w.spectatorResp.body.gameStartTime) 1000)
      ∧ 0 ≤ Int.fdiv (env.now - w.spectatorResp.body.gameStartTime) 1000
      ∧ ((getPlayerStatus env w region gameName tagLine
          champ).1.liveGameDetails).isSome = true := by
  refine ⟨?_, ?_, ?_, ?_⟩
  · simp [getPlayerStatus, authenticatedFetch, netLog, hkey, hacc, hsum,
      hspec]
  · simp [getPlayerStatus, authenticatedFetch, netLog, hkey, hacc, hsum,
      hspec]
  · rw [Int.fdiv_eq_ediv _ (by norm_num)]
    exact Int.ediv_nonneg (by omega) (by norm_num)
  · simp [getPlayerStatus, authenticatedFetch, netLog, hkey, hacc, hsum,
      hspec]

/-- Witness for C4 (amended): concrete live match that started 60 seconds
ago. -/
theorem c4_witness :
    (getPlayerStatus envWithKey wLivePast "NA1" "Alice" "tag"
        "Ahri").1.status = "IN_GAME"
      ∧ (getPlayerStatus envWithKey wLivePast "NA1" "Alice" "tag"
          "Ahri").1.statusMessage
          = inGameMessage
              (Int.fdiv (envWithKey.now
                - wLivePast.spectatorResp.body.gameStartTime) 1000)
      ∧ 0 ≤ Int.fdiv (envWithKey.now
          - wLivePast.spectatorResp.body.gameStartTime) 1000
      ∧ ((getPlayerStatus envWithKey wLivePast "NA1" "Alice" "tag"
          "Ahri").1.liveGameDetails).isSome = true :=
  c4_amended envWithKey wLivePast "NA1" "Alice" "tag" "Ahri" (by decide)
    (by decide) (by decide) (by decide) (by decide)

/-- C8: the match projector is a pure function returning null exactly when
the match-info section is missing; with no participant matching the tracked
account id the outcome defaults to loss and the KDA to "N/A"; and every ban
id unmapped by the asset cache projects to the sentinel "Unknown". -/
theorem c8_projector (championIdMap : Nat → Option String)
    (championKeyMap : String → Option String)
    (md : Option MatchData) (pid0 : String)
    (info : MatchInfo) (pid : String)
    (hnp : ∀ p ∈ info.participants, p.puuid ≠ pid)
    (j : Nat)
    (hj : j < ((info.teams.getD 0 { bans := [] }).bans).length)
    (hmiss1 : championIdMap
      (((info.teams.getD 0 { bans := [] }).bans)[j].championId) = none)
    (k : Nat)
    (hk : k < ((info.teams.getD 1 { bans := [] }).bans).length)
    (hmiss2 : championIdMap
      (((info.teams.getD 1 { bans := [] }).bans)[k].championId) = none) :
    (processMatchData championIdMap championKeyMap md pid0 = none
        ↔ md.bind MatchData.info = none)
      ∧ processMatchData championIdMap championKeyMap
          (some { info := some info }) pid
          = some (summarizeMatch championIdMap championKeyMap info pid)
      ∧ (summarizeMatch championIdMap championKeyMap info pid).win = false
      ∧ (summarizeMatch championIdMap championKeyMap info pid).kda = "N/A"
      ∧ (summarizeMatch championIdMap championKeyMap info
          pid).team1Bans[j]? = some "Unknown"
      ∧ (summarizeMatch championIdMap championKeyMap info
          pid).team2Bans[k]? = some "Unknown" := by
  have hfind := findTracked_eq_none pid info.participants hnp
  refine ⟨?_, rfl, ?_, ?_, ?_, ?_⟩
  · match md with
    | none => simp [processMatchData]
    | some d =>
      match hd : d.info with
      | none => simp [processMatchData, hd]
      | some i => simp [processMatchData, hd]
  · simp [summarizeMatch, hfind]
  · simp [summarizeMatch, hfind]
  · have hb := List.getElem?_eq_getElem hj
    simp only [List.getD_eq_getElem?_getD] at hmiss1 hb
    simp [summarizeMatch, convertBanIdsToImageKeys, List.getElem?_map, hb,
      hmiss1]
  · have hb := List.getElem?_eq_getElem hk
    simp only [List.getD_eq_getElem?_getD] at hmiss2 hb
    simp [summarizeMatch, convertBanIdsToImageKeys, List.getElem?_map, hb,
      hmiss2]

/-- Witness for C8: a record missing its info section projects to null, and
on `infoSample` (tracked player absent, ban ids unmapped) the defaults and
the "Unknown" sentinel appear. -/
theorem c8_witness :
    (processMatchData (fun _ => none) (fun _ => none)
          (some { info := none }) "pid" = none
        ↔ (some ({ info := none } : MatchData)).bind MatchData.info = none)
      ∧ processMatchData (fun _ => none) (fun _ => none)
          (some { info := some infoSample }) "pid"
          = some (summarizeMatch (fun _ => none) (fun _ => none) infoSample
              "pid")
      ∧ (summarizeMatch (fun _ => none) (fun _ => none) infoSample
          "pid").win = false
      ∧ (summarizeMatch (fun _ => none) (fun _ => none) infoSample
          "pid").kda = "N/A"
      ∧ (summarizeMatch (fun _ => none) (fun _ => none) infoSample
          "pid").team1Bans[0]? = some "Unknown"
      ∧ (summarizeMatch (fun _ => none) (fun _ => none) infoSample
          "pid").team2Bans[0]? = some "Unknown" :=
  c8_projector (fun _ => none) (fun _ => none) (some { info := none }) "pid"
    infoSample "pid" (by decide) 0 (by decide) (by decide) 0 (by decide)
    (by decide)

/-- C9: every radar result entry carries the input player's puuid and a
status that is exactly one of IN_GAME (2xx spectator response), NOT_IN_GAME
(404) or ERROR (everything else: unknown region, missing-credential
synthetic 500, 403/429, …); a malformed body is rejected with HTTP 400
before any upstream call. -/
theorem c9_radar (apiKey : Option String) (net : String → Nat)
    (ps : List RadarPlayer) (i : Nat) (hi : i < ps.length) :
    radarHandler apiKey net none = (Except.error 400, [])
      ∧ (radarHandler apiKey net (some ps)).1
          = Except.ok (ps.map fun p => (radarCheckOne apiKey net p).1)
      ∧ (ps.map fun p => (radarCheckOne apiKey net p).1).length = ps.length
      ∧ (ps.map fun p => (radarCheckOne apiKey net p).1)[i]?
          = some { puuid := ps[i].puuid,
                   status := radarStatusSpec apiKey net ps[i] }
      ∧ ∀ r ∈ (ps.map fun p => (radarCheckOne apiKey net p).1),
          r.status ∈ (["IN_GAME", "NOT_IN_GAME", "ERROR"] : List String) := by
  refine ⟨rfl, rfl, by simp, ?_, ?_⟩
  · rw [List.getElem?_map, List.getElem?_eq_getElem hi]
    simp [radarCheckOne_fst]
  · intro r hr
    obtain ⟨p, _, rfl⟩ := List.mem_map.1 hr
    rw [radarCheckOne_fst]
    exact radarStatusSpec_mem apiKey net p

/-- Witness for C9: concrete two-player radar request under a world that
answers 404. -/
theorem c9_witness :
    radarHandler (some "RGAPI-test") (fun _ => 404) none
        = (Except.error 400, [])
      ∧ (radarHandler (some "RGAPI-test") (fun _ => 404)
          (some radarPlayersSample)).1
          = Except.ok (radarPlayersSample.map fun p =>
              (radarCheckOne (some "RGAPI-test") (fun _ => 404) p).1)
      ∧ (radarPlayersSample.map fun p =>
          (radarCheckOne (some "RGAPI-test") (fun _ => 404) p).1).length
          = radarPlayersSample.length
      ∧ (radarPlayersSample.map fun p =>
          (radarCheckOne (some "RGAPI-test") (fun _ => 404) p).1)[0]?
          = some { puuid := radarPlayersSample[0].puuid,
                   status := radarStatusSpec (some "RGAPI-test")
                     (fun _ => 404) radarPlayersSample[0] }
      ∧ ∀ r ∈ (radarPlayersSample.map fun p =>
            (radarCheckOne (some "RGAPI-test") (fun _ => 404) p).1),
          r.status ∈ (["IN_GAME", "NOT_IN_GAME", "ERROR"] : List String) :=
  c9_radar (some "RGAPI-test") (fun _ => 404) radarPlayersSample 0 (by decide)

/-- C10: the batch handler returns exactly one result entry per input
player, in input order, each tagged with the corresponding input player's
`id` (overriding any id the resolver set). -/
theorem c10_batch (env : ResolverEnv) (worldOf : PlayerReq → World)
    (players : List PlayerReq) (champ : String) (i : Nat)
    (hi : i < players.length)
    (hkey : keyMissing env.apiKey = false) :
    checkStatusHandler env worldOf players champ
        = Except.ok (batchStatuses env worldOf players champ)
      ∧ (batchStatuses env worldOf players champ).length = players.length
      ∧ (batchStatuses env worldOf players champ)[i]?
          = some { (getPlayerStatus env (worldOf players[i])
              players[i].region players[i].gameName players[i].tagLine
              champ).1 with id := some players[i].id }
      ∧ ((batchStatuses env worldOf players champ).map
          PlayerStatus.id)[i]? = some (some players[i].id) := by
  refine ⟨by simp [checkStatusHandler, hkey], by simp [batchStatuses],
    ?_, ?_⟩
  · rw [batchStatuses, List.getElem?_map, List.getElem?_eq_getElem hi]
    simp
  · rw [batchStatuses, List.map_map, List.getElem?_map,
      List.getElem?_eq_getElem hi]
    rfl

/-- Witness for C10: one-player batch under the no-recent-games world. -/
theorem c10_witness :
    checkStatusHandler envWithKey (fun _ => wNoGames) playersSample "Ahri"
        = Except.ok (batchStatuses envWithKey (fun _ => wNoGames)
            playersSample "Ahri")
      ∧ (batchStatuses envWithKey (fun _ => wNoGames) playersSample
          "Ahri").length = playersSample.length
      ∧ (batchStatuses envWithKey (fun _ => wNoGames) playersSample
          "Ahri")[0]?
          = some { (getPlayerStatus envWithKey (wNoGames)
              playersSample[0].region playersSample[0].gameName
              playersSample[0].tagLine "Ahri").1
              with id := some playersSample[0].id }
      ∧ ((batchStatuses envWithKey (fun _ => wNoGames) playersSample
          "Ahri").map PlayerStatus.id)[0]? = some (some playersSample[0].id) :=
  c10_batch envWithKey (fun _ => wNoGames) playersSample "Ahri" 0 (by decide)
    (by decide)

end Dodgerino
